import Mathlib

/-!
Verification of the paginated Instagram-profile aggregation engine
(`src/common_functions.py`, `src/ex1.py`) against its specification.

The Python code is shallowly embedded: every HTTP response is a value of
type `Option (Response β)` where `none` models `api_call` returning `None`
(transport failure, including non-2xx statuses surfaced by
`raise_for_status`), `Response.body = none` models a present response
whose body decodes to a falsy value (decode failure or empty mapping),
and `Response.body = some b` models a truthy decoded JSON body whose
relevant fields are the fields of `b` with the `.get` defaults of the
source already applied.  Pagination upstreams are modelled as functions
`Nat → Option (Response β)` giving the response to the n-th request of a
run (the cursor value only selects the URL in the source, so only its
presence or absence is semantically relevant).  Python exceptions that
escape a function are modelled with `Except`.  Timestamps are kept as
natural numbers: the source stores `str(datetime.fromtimestamp(t))`,
which is order-preserving in `t`, and no claim inspects the formatting.

Three behaviours of the source that the embedding must respect:
`safe_json(None)` raises an `AttributeError` (its bare-except handler
evaluates `response.text` on `None`); `process_batch_posts` calls
`_process_post(post)` WITHOUT `await`, so in the program every
non-skipped post node appends a coroutine object and then raises an
`AttributeError` at `processed_post.get('likes_count', 0)`; and the four
paginated collectors `user_data_followers`, `user_data_following`,
`user_data_posts` and `user_data_reels` carry a `@cached(cache)`
decorator whose cache key includes their list argument, so hashing the
key raises a `TypeError` on every call, before their loops can run.  The
page-level batch embeddings below flatten the first of these raises into
the end-of-stream outcome; that collapse ends a run exactly where the
program would end it by raising, and is relied on only by the
termination and request-bound theorems, whose conclusions it preserves.
The decorated collector symbols themselves are embedded with their
wrapper, and the entry point calls those.
-/

/-- A Python exception kind that the engine itself never catches. -/
inductive PyErr where
  | attributeError
  | typeError
deriving DecidableEq

/-- A decoded HTTP response: `status` and the result of `safe_json`
(`body = none` when the decoded JSON is falsy). -/
structure Response (β : Type) where
  status : Nat
  body : Option β
deriving DecidableEq

/-- Embeds `safe_json` from `src/common_functions.py`.  On a PRESENT
response a decode failure is caught by the bare `except` and the falsy
empty mapping returned (`.ok none`).  On a `None` response, however, the
handler itself evaluates `response.text` (line 141) and so raises an
`AttributeError` out of `safe_json`. -/
def safe_json {β : Type} (resp : Option (Response β)) : Except PyErr (Option β) :=
  match resp with
  | none => .error .attributeError
  | some r => .ok r.body

/-- Embeds the key rotator `get_next_api_key` from
`src/common_functions.py`: `popleft` the front credential, `append` it at
the back, return it.  `none` models the `IndexError` that `popleft`
raises on an empty deque (the pool is initialised non-empty at startup).
The surrounding `asyncio.Lock` only serialises concurrent callers; the
sequential semantics embedded here is what each caller observes. -/
def get_next_api_key (pool : List String) : Option (String × List String) :=
  match pool with
  | [] => none
  | k :: rest => some (k, rest ++ [k])

/-- Runs the key rotator `n` times from a given pool, returning the list
of credentials handed out, in order, and the final pool. -/
def run_rotator : List String → Nat → List String × List String
  | pool, 0 => ([], pool)
  | pool, n + 1 =>
    match get_next_api_key pool with
    | none => ([], pool)
    | some (k, pool') =>
      let r := run_rotator pool' n
      (k :: r.1, r.2)

theorem run_rotator_prefix (l₂ : List String) :
    ∀ l₁ : List String, run_rotator (l₂ ++ l₁) l₂.length = (l₂, l₁ ++ l₂) := by
  induction l₂ with
  | nil => intro l₁; simp [run_rotator]
  | cons a t ih =>
    intro l₁
    simp only [List.cons_append, List.length_cons, run_rotator, get_next_api_key]
    rw [List.append_assoc]
    rw [ih (l₁ ++ [a])]
    simp

theorem run_rotator_nil (n : Nat) : run_rotator [] n = ([], []) := by
  cases n with
  | zero => rfl
  | succ n => simp [run_rotator, get_next_api_key]

theorem run_rotator_add (m : Nat) :
    ∀ (n : Nat) (pool : List String),
      run_rotator pool (m + n) =
        ((run_rotator pool m).1 ++ (run_rotator (run_rotator pool m).2 n).1,
          (run_rotator (run_rotator pool m).2 n).2) := by
  induction m with
  | zero => intro n pool; simp [run_rotator]
  | succ m ih =>
    intro n pool
    match pool with
    | [] => simp [run_rotator, get_next_api_key, run_rotator_nil]
    | k :: rest =>
      have hadd : m + 1 + n = (m + n) + 1 := by omega
      rw [hadd]
      simp only [run_rotator, get_next_api_key]
      rw [ih n (rest ++ [k])]
      simp

theorem run_rotator_perm (n : Nat) :
    ∀ pool : List String, ((run_rotator pool n).2).Perm pool := by
  induction n with
  | zero => intro pool; simp [run_rotator]
  | succ n ih =>
    intro pool
    match pool with
    | [] => simp [run_rotator, get_next_api_key]
    | k :: rest =>
      simp only [run_rotator, get_next_api_key]
      exact (ih (rest ++ [k])).trans (List.perm_append_singleton k rest)

/-- C5: for a credential pool of size N, N consecutive rotator calls hand
out each credential exactly once, in the original pool order, and leave
the pool equal to its original state; the (N+1)-th call hands out the
first credential again; after any number of calls the pool is a
permutation of the original (nothing dropped or duplicated) and its size
is unchanged. -/
theorem rotation_fairness (l : List String) (h : l ≠ []) :
    (run_rotator l l.length).1 = l ∧
    (run_rotator l l.length).2 = l ∧
    (run_rotator l (l.length + 1)).1 = l ++ [l.head h] ∧
    ∀ n : Nat, ((run_rotator l n).2).Perm l ∧ ((run_rotator l n).2).length = l.length := by
  have hbase := run_rotator_prefix l []
  rw [List.append_nil] at hbase
  refine ⟨?_, ?_, ?_, ?_⟩
  · rw [hbase]
  · rw [hbase]; simp
  · rw [run_rotator_add l.length 1 l]
    rw [hbase]
    simp only [List.nil_append]
    match l, h with
    | k :: rest, _ =>
      simp [run_rotator, get_next_api_key]
  · intro n
    refine ⟨run_rotator_perm n l, ?_⟩
    exact (run_rotator_perm n l).length_eq

/-- Witness for C5 on the concrete three-credential pool a, b, c. -/
theorem rotation_fairness_witness :
    (run_rotator ["a", "b", "c"] 3).1 = ["a", "b", "c"] ∧
    (run_rotator ["a", "b", "c"] 4).1 = ["a", "b", "c", "a"] ∧
    ((run_rotator ["a", "b", "c"] 7).2).length = 3 := by
  have h := rotation_fairness ["a", "b", "c"] (by decide)
  exact ⟨h.1, h.2.2.1, (h.2.2.2 7).2⟩

/-- A raw like node from one page of the post-likes endpoint
(`like.get('node', {})` in `process_batch`), with the `.get` defaults of
the source applied. -/
structure LikeNode where
  username : String
  profile_pic_url : String
  id : String
deriving DecidableEq

/-- A like record accumulated by `process_batch` in `src/ex1.py`. -/
structure LikeItem where
  username : String
  icon_url : String
  profile_link : String
  id : String
deriving DecidableEq

/-- The decoded `data` object of one post-likes page: the `likes` array
and the optional `end_cursor` (absent modelled as `none`). -/
structure LikesBody where
  likes : List LikeNode
  end_cursor : Option String
deriving DecidableEq

/-- Embeds `process_batch` from `src/ex1.py` (one page of the per-post
likes stream).  On a present response with a falsy decoded body or a
non-200 status the page contributes nothing and the cursor is terminal.
In the source a `None` response raises an `AttributeError` inside
`await safe_json(response)`; this embedding flattens that raise into the
same end-of-stream outcome (accumulator unchanged, terminal cursor),
which ends the surrounding loop exactly where the program would end it
by raising — the flattening is relied on only by the termination and
request-bound theorems, whose conclusions it preserves.  On a good page
it appends every like to `result` (no deduplication, no truncation) and
returns the next cursor, forced to `none` unless `counter * 50 < MAXL`
where `MAXL` is `MAX_ANALYSIS_LIKES_AND_COMMENTS` (supplied by the
external `src.config`, hence a parameter here). -/
def process_batch (MAXL : Nat) (resp : Option (Response LikesBody)) (counter : Nat)
    (result : List LikeItem) : List LikeItem × Option String :=
  match resp with
  | none => (result, none)
  | some r =>
    match r.body with
    | none => (result, none)
    | some body =>
      if r.status = 200 then
        let result' := result ++ body.likes.map (fun node =>
          { username := node.username, icon_url := node.profile_pic_url,
            profile_link := "https://instagram.com/" ++ node.username,
            id := node.id })
        if counter * 50 < MAXL then (result', body.end_cursor) else (result', none)
      else (result, none)

theorem process_batch_cursor_lt (MAXL : Nat) (resp : Option (Response LikesBody))
    (counter : Nat) (result : List LikeItem) (s : String)
    (h : (process_batch MAXL resp counter result).2 = some s) : counter * 50 < MAXL := by
  unfold process_batch at h
  match resp with
  | none => simp at h
  | some r =>
    match hb : r.body with
    | none => simp [hb] at h
    | some body =>
      simp only [hb] at h
      split at h
      · split at h
        · assumption
        · simp at h
      · simp at h

/-- Embeds the `while end_cursor is not None` loop of `post_likes` from
`src/ex1.py` as a fuel-indexed recursion.  The initial cursor of the
source is the non-`None` sentinel string, so the first page is always
requested; the loop body is one `process_batch` call followed by
`counter += 1`.  Returns the accumulated list and the final value of
`counter` (so that the number of requests made is the final counter minus
the initial one); `none` is the fuel-exhaustion artifact, proven
unreachable for fuel at least `MAXL + 1 - counter` by
`post_likes_aux_total`. -/
def post_likes_aux (MAXL : Nat) (pages : Nat → Option (Response LikesBody)) :
    Nat → Nat → List LikeItem → Option (List LikeItem × Nat)
  | 0, counter, result =>
    match process_batch MAXL (pages counter) counter result with
    | (result', none) => some (result', counter + 1)
    | (_, some _) => none
  | fuel + 1, counter, result =>
    match process_batch MAXL (pages counter) counter result with
    | (result', none) => some (result', counter + 1)
    | (result', some _) => post_likes_aux MAXL pages fuel (counter + 1) result'

theorem post_likes_aux_total (MAXL : Nat) (pages : Nat → Option (Response LikesBody)) :
    ∀ (fuel counter : Nat) (result : List LikeItem), MAXL + 1 ≤ fuel + counter →
      (post_likes_aux MAXL pages fuel counter result).isSome = true := by
  intro fuel
  induction fuel with
  | zero =>
    intro counter result h
    unfold post_likes_aux
    match hpb : process_batch MAXL (pages counter) counter result with
    | (result', none) => simp
    | (result', some s) =>
      have := process_batch_cursor_lt MAXL (pages counter) counter result s (by rw [hpb])
      omega
  | succ fuel ih =>
    intro counter result h
    unfold post_likes_aux
    match hpb : process_batch MAXL (pages counter) counter result with
    | (result', none) => simp
    | (result', some s) =>
      exact ih (counter + 1) result' (by omega)

/-- Embeds `post_likes` from `src/ex1.py` for one shortcode: runs the
paging loop from `counter = 1` with an empty accumulator and yields the
accumulated like list together with the final counter.  The source
returns `len(result)` while mutating the passed list; both are
recoverable from the returned list.  Fuel `MAXL + 1` is sufficient by
`post_likes_aux_total`, so the default branch is unreachable. -/
def post_likes (MAXL : Nat) (pages : Nat → Option (Response LikesBody)) :
    List LikeItem × Nat :=
  (post_likes_aux MAXL pages (MAXL + 1) 1 []).getD ([], 1)

/-- A raw user node from one followers/following page
(`data.get('user', [])` entries in `process_batch_follow`). -/
structure FollowNode where
  username : String
  profile_pic_url : String
deriving DecidableEq

/-- A follower/following record accumulated by `process_batch_follow`. -/
structure FollowItem where
  username : String
  icon_url : String
  profile_link : String
deriving DecidableEq

/-- The decoded `data` object of one followers/following page. -/
structure FollowBody where
  user : List FollowNode
  end_cursor : Option String
deriving DecidableEq

/-- Embeds `process_batch_follow` from `src/ex1.py`: appends every user
node of the page to `full_list` with no deduplication, and returns the
next cursor, forced to `none` unless `counter * 50 < MAXF` where `MAXF`
is `MAX_ANALYSIS_FOLLOWERS_AND_FOLLOWS`.  As in `process_batch`, the
`AttributeError` that the source raises on a `None` response (inside
`safe_json`) is flattened into the end-of-stream outcome; the flattening
only makes a run end normally where the program would end by raising. -/
def process_batch_follow (MAXF : Nat) (resp : Option (Response FollowBody))
    (full_list : List FollowItem) (counter : Nat) : List FollowItem × Option String :=
  match resp with
  | none => (full_list, none)
  | some r =>
    match r.body with
    | none => (full_list, none)
    | some body =>
      if r.status = 200 then
        let full_list' := full_list ++ body.user.map (fun user =>
          { username := user.username, icon_url := user.profile_pic_url,
            profile_link := "https://instagram.com/" ++ user.username })
        if counter * 50 < MAXF then (full_list', body.end_cursor) else (full_list', none)
      else (full_list, none)

theorem process_batch_follow_cursor_lt (MAXF : Nat) (resp : Option (Response FollowBody))
    (full_list : List FollowItem) (counter : Nat) (s : String)
    (h : (process_batch_follow MAXF resp full_list counter).2 = some s) :
    counter * 50 < MAXF := by
  unfold process_batch_follow at h
  match resp with
  | none => simp at h
  | some r =>
    match hb : r.body with
    | none => simp [hb] at h
    | some body =>
      simp only [hb] at h
      split at h
      · split at h
        · assumption
        · simp at h
      · simp at h

/-- Embeds the `while offset is not None` loop of `user_data_followers`
from `src/ex1.py` (the initial offset `0` is not `None`, so the first
page is always requested). -/
def user_data_followers_aux (MAXF : Nat) (pages : Nat → Option (Response FollowBody)) :
    Nat → Nat → List FollowItem → Option (List FollowItem × Nat)
  | 0, counter, full_list =>
    match process_batch_follow MAXF (pages counter) full_list counter with
    | (full_list', none) => some (full_list', counter + 1)
    | (_, some _) => none
  | fuel + 1, counter, full_list =>
    match process_batch_follow MAXF (pages counter) full_list counter with
    | (full_list', none) => some (full_list', counter + 1)
    | (full_list', some _) => user_data_followers_aux MAXF pages fuel (counter + 1) full_list'

theorem user_data_followers_aux_total (MAXF : Nat)
    (pages : Nat → Option (Response FollowBody)) :
    ∀ (fuel counter : Nat) (full_list : List FollowItem), MAXF + 1 ≤ fuel + counter →
      (user_data_followers_aux MAXF pages fuel counter full_list).isSome = true := by
  intro fuel
  induction fuel with
  | zero =>
    intro counter full_list h
    unfold user_data_followers_aux
    match hpb : process_batch_follow MAXF (pages counter) full_list counter with
    | (full_list', none) => simp
    | (full_list', some s) =>
      have := process_batch_follow_cursor_lt MAXF (pages counter) full_list counter s
        (by rw [hpb])
      omega
  | succ fuel ih =>
    intro counter full_list h
    unfold user_data_followers_aux
    match hpb : process_batch_follow MAXF (pages counter) full_list counter with
    | (full_list', none) => simp
    | (full_list', some s) => exact ih (counter + 1) full_list' (by omega)

/-- Embeds the `while offset is not None` loop of `user_data_following`
from `src/ex1.py`; the body is identical to the followers loop, only the
URL (hence the page environment) differs. -/
def user_data_following_aux (MAXF : Nat) (pages : Nat → Option (Response FollowBody)) :
    Nat → Nat → List FollowItem → Option (List FollowItem × Nat)
  | 0, counter, full_list =>
    match process_batch_follow MAXF (pages counter) full_list counter with
    | (full_list', none) => some (full_list', counter + 1)
    | (_, some _) => none
  | fuel + 1, counter, full_list =>
    match process_batch_follow MAXF (pages counter) full_list counter with
    | (full_list', none) => some (full_list', counter + 1)
    | (full_list', some _) => user_data_following_aux MAXF pages fuel (counter + 1) full_list'

theorem user_data_following_aux_total (MAXF : Nat)
    (pages : Nat → Option (Response FollowBody)) :
    ∀ (fuel counter : Nat) (full_list : List FollowItem), MAXF + 1 ≤ fuel + counter →
      (user_data_following_aux MAXF pages fuel counter full_list).isSome = true := by
  intro fuel
  induction fuel with
  | zero =>
    intro counter full_list h
    unfold user_data_following_aux
    match hpb : process_batch_follow MAXF (pages counter) full_list counter with
    | (full_list', none) => simp
    | (full_list', some s) =>
      have := process_batch_follow_cursor_lt MAXF (pages counter) full_list counter s
        (by rw [hpb])
      omega
  | succ fuel ih =>
    intro counter full_list h
    unfold user_data_following_aux
    match hpb : process_batch_follow MAXF (pages counter) full_list counter with
    | (full_list', none) => simp
    | (full_list', some s) => exact ih (counter + 1) full_list' (by omega)

/-- The body of `user_data_followers` from `src/ex1.py` WITHOUT its
`@cached(cache)` decorator: the followers loop from `counter = 1`,
returning the accumulated list and the final counter.  Fuel `MAXF + 1`
is sufficient (`user_data_followers_aux_total`).  In the program this
body is unreachable: the wrapper raises first (see
`user_data_followers`). -/
def user_data_followers_loop (MAXF : Nat)
    (pages : Nat → Option (Response FollowBody)) : List FollowItem × Nat :=
  (user_data_followers_aux MAXF pages (MAXF + 1) 1 []).getD ([], 1)

/-- The body of `user_data_following` from `src/ex1.py` WITHOUT its
`@cached(cache)` decorator. -/
def user_data_following_loop (MAXF : Nat)
    (pages : Nat → Option (Response FollowBody)) : List FollowItem × Nat :=
  (user_data_following_aux MAXF pages (MAXF + 1) 1 []).getD ([], 1)

/-- A positional argument of a `@cached` call, as far as hashability is
concerned: the decorated collectors receive an int uid and a (mutable,
unhashable) list accumulator. -/
inductive PyArg where
  | int (n : Nat)
  | list
deriving DecidableEq

/-- Whether Python `hash()` succeeds on the argument: lists are
unhashable. -/
def hashablePyArg : PyArg → Bool
  | .int _ => true
  | .list => false

/-- Embeds the key step of the `cachetools.cached` wrapper:
`hashkey(*args)` packs the arguments into a tuple and the `TTLCache`
lookup hashes it; hashing raises a `TypeError` when any argument is
unhashable.  The wrapper catches only `KeyError` around the lookup (and
only `ValueError` around the store), so the `TypeError` escapes to the
caller before the wrapped function is ever invoked. -/
def cached_key_hash (args : List PyArg) : Except PyErr Unit :=
  if args.all hashablePyArg then .ok () else .error .typeError

/-- Embeds the source symbol `user_data_followers` from `src/ex1.py` —
that is, `@cached(cache)` applied to the followers loop.  The wrapper
hashes the key built from `(uid, full_list)` before anything else, and
the list argument makes that raise a `TypeError` on every call, so the
loop body is never reached and no page is ever requested. -/
def user_data_followers (MAXF : Nat) (pages : Nat → Option (Response FollowBody))
    (uid : Nat) : Except PyErr (List FollowItem × Nat) :=
  match cached_key_hash [.int uid, .list] with
  | .error e => .error e
  | .ok _ => .ok (user_data_followers_loop MAXF pages)

/-- Embeds the source symbol `user_data_following` from `src/ex1.py`
(`@cached(cache)` applied to the following loop): raises `TypeError` on
every call, like `user_data_followers`. -/
def user_data_following (MAXF : Nat) (pages : Nat → Option (Response FollowBody))
    (uid : Nat) : Except PyErr (List FollowItem × Nat) :=
  match cached_key_hash [.int uid, .list] with
  | .error e => .error e
  | .ok _ => .ok (user_data_following_loop MAXF pages)

/-- A raw preview child comment of `post_comments` (same shape as a top
comment without nested children), with `.get` defaults applied. -/
structure RawChildComment where
  username : String
  profile_pic_url : String
  pk_id : String
  text : String
  created_at_utc : Nat
  has_liked_comment : Bool
deriving DecidableEq

/-- A raw top-level comment node of one `post_comments` response. -/
structure RawComment where
  username : String
  profile_pic_url : String
  pk_id : String
  text : String
  created_at_utc : Nat
  has_liked_comment : Bool
  preview_child_comments : List RawChildComment
deriving DecidableEq

/-- A comment record produced by `_process_comment` in `src/ex1.py`.
The source stores `str(datetime.fromtimestamp(created_at_utc))`; the
timestamp is kept as the order-preserving stand-in. -/
structure Comment where
  date : Nat
  has_liked_comment : Bool
  text : String
  username : String
  icon_url : String
  profile_link : String
  id : String
deriving DecidableEq

/-- The decoded `data` object of the single comments call: the
`comments` array and the upstream-reported `count`. -/
structure CommentsBody where
  comments : List RawComment
  count : Nat
deriving DecidableEq

/-- Embeds `_process_comment` from `src/ex1.py` for a child comment. -/
def _process_comment_child (comment : RawChildComment) : Comment :=
  { date := comment.created_at_utc,
    has_liked_comment := comment.has_liked_comment,
    text := comment.text,
    username := comment.username,
    icon_url := comment.profile_pic_url,
    profile_link := "https://instagram.com/" ++ comment.username,
    id := comment.pk_id }

/-- Embeds `_process_comment` from `src/ex1.py` for a top-level comment. -/
def _process_comment (comment : RawComment) : Comment :=
  { date := comment.created_at_utc,
    has_liked_comment := comment.has_liked_comment,
    text := comment.text,
    username := comment.username,
    icon_url := comment.profile_pic_url,
    profile_link := "https://instagram.com/" ++ comment.username,
    id := comment.pk_id }

/-- The inner loop of `post_comments` over the preview child comments of
one top-level comment, threading the `seen_users` set (modelled as a
list). -/
def processChildComments : List RawChildComment → List String → List Comment × List String
  | [], seen => ([], seen)
  | child :: rest, seen =>
    if child.username ∈ seen then processChildComments rest seen
    else
      let r := processChildComments rest (child.username :: seen)
      (_process_comment_child child :: r.1, r.2)

/-- The loop of `post_comments` over top-level comments: each comment is
kept unless its username was already seen, then its preview children are
walked under the same `seen_users` set. -/
def processComments : List RawComment → List String → List Comment × List String
  | [], seen => ([], seen)
  | comment :: rest, seen =>
    let top : List Comment × List String :=
      if comment.username ∈ seen then ([], seen)
      else ([_process_comment comment], comment.username :: seen)
    let children := processChildComments comment.preview_child_comments top.2
    let tail := processComments rest children.2
    (top.1 ++ children.1 ++ tail.1, tail.2)

/-- Embeds `post_comments` from `src/ex1.py`.  The source returns
`(result, data.get('count', 0))` only inside `if json_data:`; when the
response is present with status 200 but the decoded body is falsy, the
function falls off the end and returns Python `None`, modelled as the
Lean `none`.  The explicit `else` branch returns `([], 0)` when the
response is absent or the status is not 200. -/
def post_comments (resp : Option (Response CommentsBody)) : Option (List Comment × Nat) :=
  match resp with
  | none => some ([], 0)
  | some r =>
    if r.status = 200 then
      match r.body with
      | none => none
      | some body => some ((processComments body.comments []).1, body.count)
    else some ([], 0)

/-- A raw post node from one page of the posts endpoint
(`edge.get('node', {})` in `process_batch_posts`), with the `.get`
defaults of the source applied.  `taken_at_timestamp = 0` models a
missing or falsy value (the source computes
`post.get('taken_at_timestamp') or post.get('taken_at', 0)`, and Python
treats both `None` and `0` as falsy).  `caption_edges` holds the caption
texts of `edge_media_to_caption.edges`, `sidecar` the display URLs of
`edge_sidecar_to_children.edges`. -/
structure PostNode where
  shortcode : String
  taken_at_timestamp : Nat
  taken_at : Nat
  is_video : Bool
  video_view_count : Nat
  display_url : String
  sidecar : List String
  caption_edges : List String
deriving DecidableEq

/-- The decoded `data` object of one posts page. -/
structure PostsBody where
  edges : List PostNode
  end_cursor : Option String
deriving DecidableEq

/-- A raw reel node (`edge.get('media', {})` in `process_batch_reels`).
`play_count = none` models a missing key, making `view_count` the
fallback of `post.get('play_count', post.get('view_count', 0))`;
`caption = none` models a falsy caption mapping; `image_url` is
`image_versions2.candidates[0].get("url", None)`. -/
structure ReelNode where
  code : String
  taken_at : Nat
  play_count : Option Nat
  view_count : Nat
  caption : Option String
  image_url : Option String
deriving DecidableEq

/-- The decoded `data` object of one reels page (`items` array). -/
structure ReelsBody where
  items : List ReelNode
  end_cursor : Option String
deriving DecidableEq

/-- A post/reel record as assembled by `_process_post` and
`_process_reels` in `src/ex1.py` (both are appended to the same media
list by the aggregator).  `media` entries are `Option String` because the
reels variant can store a Python `None` URL. -/
structure Post where
  shortcode : String
  likes : List LikeItem
  comments : List Comment
  post_url : String
  post_date : Nat
  view_count : Nat
  media : List (Option String)
  likes_count : Nat
  comments_count : Nat
  text : String
deriving DecidableEq

/-- Embeds `_process_post` from `src/ex1.py`: builds one post record,
running the per-post likes collector (filling `likes` and producing
`likes_count = len(likes)`) and the per-post comments collector.  When
`post_comments` returns Python `None` (status 200 with a falsy decoded
body), the unpacking `post_comment, comments_count = ...` raises a
`TypeError`, modelled as the `Except.error`. -/
def _process_post (MAXL : Nat) (likesPages : String → Nat → Option (Response LikesBody))
    (commentsResp : String → Option (Response CommentsBody)) (post : PostNode) :
    Except PyErr Post :=
  let shortcode := post.shortcode
  let post_like := (post_likes MAXL (likesPages shortcode)).1
  let likes_count := post_like.length
  match post_comments (commentsResp shortcode) with
  | none => .error .typeError
  | some (post_comment, comments_count) =>
    .ok { shortcode := shortcode,
          likes := post_like,
          comments := post_comment,
          post_url := "https://instagram.com/p/" ++ shortcode,
          post_date := if post.taken_at_timestamp ≠ 0 then post.taken_at_timestamp
            else post.taken_at,
          view_count := if post.is_video then post.video_view_count else 0,
          media := if post.sidecar ≠ [] then post.sidecar.map some
            else [some post.display_url],
          likes_count := likes_count,
          comments_count := comments_count,
          text := match post.caption_edges with
            | [] => ""
            | t :: _ => t }

/-- Embeds `_process_reels` from `src/ex1.py`: like `_process_post` but
for a reel node (`code` as the shortcode, `/tv/` URL,
`play_count`-with-`view_count`-fallback, single candidate image URL). -/
def _process_reels (MAXL : Nat) (likesPages : String → Nat → Option (Response LikesBody))
    (commentsResp : String → Option (Response CommentsBody)) (post : ReelNode) :
    Except PyErr Post :=
  let shortcode := post.code
  let post_like := (post_likes MAXL (likesPages shortcode)).1
  let likes_count := post_like.length
  match post_comments (commentsResp shortcode) with
  | none => .error .typeError
  | some (post_comment, comments_count) =>
    .ok { shortcode := shortcode,
          likes := post_like,
          comments := post_comment,
          post_url := "https://instagram.com/tv/" ++ shortcode,
          post_date := post.taken_at,
          view_count := match post.play_count with
            | some p => p
            | none => post.view_count,
          media := [post.image_url],
          likes_count := likes_count,
          comments_count := comments_count,
          text := match post.caption with
            | some t => t
            | none => "" }

/-- The `for edge in edges` loop of `process_batch_posts`: skips a node
whose shortcode is in `existing` (the set computed once from the
accumulated list at the start of the page; the source does not extend it
within the page), otherwise builds the post and folds its counts into the
running totals.  FIDELITY CAVEAT: at `ex1.py` line 330 the source calls
`_process_post(post)` WITHOUT `await` (unlike the reels loop at line
440), so in the program every node that passes the shortcode filter
appends a coroutine object to `full_list` and the very next line,
`processed_post.get('likes_count', 0)`, raises an `AttributeError`.
This definition instead models the awaited enrichment that the
surrounding code assumes; in the program it sits behind the always
failing `@cached` wrapper of `user_data_posts` and is reached only by
the termination theorem, for which a raise and a clean end are the same
outcome.  No claim about accumulated posts is settled on it. -/
def process_post_edges (MAXL : Nat)
    (likesPages : String → Nat → Option (Response LikesBody))
    (commentsResp : String → Option (Response CommentsBody)) :
    List PostNode → List String → List Post → Nat → Nat → Nat →
    Except PyErr (List Post × Nat × Nat × Nat)
  | [], _, full_list, tl, tc, tv => .ok (full_list, tl, tc, tv)
  | node :: rest, existing, full_list, tl, tc, tv =>
    if node.shortcode ∈ existing then
      process_post_edges MAXL likesPages commentsResp rest existing full_list tl tc tv
    else
      match _process_post MAXL likesPages commentsResp node with
      | .error e => .error e
      | .ok p =>
        process_post_edges MAXL likesPages commentsResp rest existing
          (full_list ++ [p]) (tl + p.likes_count) (tc + p.comments_count)
          (tv + p.view_count)

/-- Embeds `process_batch_posts` from `src/ex1.py`: one page of the posts
stream, with the shortcode page filter and the running totals, returning
the next cursor forced to `none` unless `counter * 50 < MAXP` where
`MAXP` is `MAX_ANALYSIS_POSTS_AND_REELS`.  The `None` response raise
from `safe_json` is flattened into the end-of-stream outcome as in
`process_batch`, and the page body inherits the unawaited
`_process_post` caveat of `process_post_edges`. -/
def process_batch_posts (MAXP MAXL : Nat)
    (likesPages : String → Nat → Option (Response LikesBody))
    (commentsResp : String → Option (Response CommentsBody))
    (resp : Option (Response PostsBody)) (counter : Nat) (full_list : List Post)
    (tl tc tv : Nat) :
    Except PyErr (List Post × Nat × Nat × Nat × Option String) :=
  match resp with
  | none => .ok (full_list, tl, tc, tv, none)
  | some r =>
    match r.body with
    | none => .ok (full_list, tl, tc, tv, none)
    | some body =>
      if r.status = 200 then
        let existing := full_list.map (fun p => p.shortcode)
        match process_post_edges MAXL likesPages commentsResp body.edges existing
            full_list tl tc tv with
        | .error e => .error e
        | .ok (full_list', tl', tc', tv') =>
          if counter * 50 < MAXP then .ok (full_list', tl', tc', tv', body.end_cursor)
          else .ok (full_list', tl', tc', tv', none)
      else .ok (full_list, tl, tc, tv, none)

/-- The `for edge in edges` loop of `process_batch_reels`: every item of
the page is appended, with no deduplication of any kind.  The reels loop
DOES await `_process_reels` (`ex1.py` line 440), so this loop is the
faithful awaited fold. -/
def process_reel_items (MAXL : Nat)
    (likesPages : String → Nat → Option (Response LikesBody))
    (commentsResp : String → Option (Response CommentsBody)) :
    List ReelNode → List Post → Nat → Nat → Nat →
    Except PyErr (List Post × Nat × Nat × Nat)
  | [], full_list, tl, tc, tv => .ok (full_list, tl, tc, tv)
  | node :: rest, full_list, tl, tc, tv =>
    match _process_reels MAXL likesPages commentsResp node with
    | .error e => .error e
    | .ok p =>
      process_reel_items MAXL likesPages commentsResp rest (full_list ++ [p])
        (tl + p.likes_count) (tc + p.comments_count) (tv + p.view_count)

/-- Embeds `process_batch_reels` from `src/ex1.py`, with the `None`
response raise from `safe_json` flattened into the end-of-stream outcome
as in `process_batch`. -/
def process_batch_reels (MAXP MAXL : Nat)
    (likesPages : String → Nat → Option (Response LikesBody))
    (commentsResp : String → Option (Response CommentsBody))
    (resp : Option (Response ReelsBody)) (counter : Nat) (full_list : List Post)
    (tl tc tv : Nat) :
    Except PyErr (List Post × Nat × Nat × Nat × Option String) :=
  match resp with
  | none => .ok (full_list, tl, tc, tv, none)
  | some r =>
    match r.body with
    | none => .ok (full_list, tl, tc, tv, none)
    | some body =>
      if r.status = 200 then
        match process_reel_items MAXL likesPages commentsResp body.items
            full_list tl tc tv with
        | .error e => .error e
        | .ok (full_list', tl', tc', tv') =>
          if counter * 50 < MAXP then .ok (full_list', tl', tc', tv', body.end_cursor)
          else .ok (full_list', tl', tc', tv', none)
      else .ok (full_list, tl, tc, tv, none)

theorem process_batch_posts_cursor_lt (MAXP MAXL : Nat)
    (likesPages : String → Nat → Option (Response LikesBody))
    (commentsResp : String → Option (Response CommentsBody))
    (resp : Option (Response PostsBody)) (counter : Nat) (full_list : List Post)
    (tl tc tv : Nat) (out : List Post × Nat × Nat × Nat) (s : String)
    (h : process_batch_posts MAXP MAXL likesPages commentsResp resp counter full_list
        tl tc tv = .ok (out.1, out.2.1, out.2.2.1, out.2.2.2, some s)) :
    counter * 50 < MAXP := by
  unfold process_batch_posts at h
  match resp with
  | none => simp at h
  | some r =>
    match hb : r.body with
    | none => simp [hb] at h
    | some body =>
      simp only [hb] at h
      split at h
      · split at h
        · simp at h
        · split at h
          · assumption
          · simp at h
      · simp at h

theorem process_batch_reels_cursor_lt (MAXP MAXL : Nat)
    (likesPages : String → Nat → Option (Response LikesBody))
    (commentsResp : String → Option (Response CommentsBody))
    (resp : Option (Response ReelsBody)) (counter : Nat) (full_list : List Post)
    (tl tc tv : Nat) (out : List Post × Nat × Nat × Nat) (s : String)
    (h : process_batch_reels MAXP MAXL likesPages commentsResp resp counter full_list
        tl tc tv = .ok (out.1, out.2.1, out.2.2.1, out.2.2.2, some s)) :
    counter * 50 < MAXP := by
  unfold process_batch_reels at h
  match resp with
  | none => simp at h
  | some r =>
    match hb : r.body with
    | none => simp [hb] at h
    | some body =>
      simp only [hb] at h
      split at h
      · split at h
        · simp at h
        · split at h
          · assumption
          · simp at h
      · simp at h

/-- Embeds the `while end_cursor is not None` loop of `user_data_posts`
from `src/ex1.py` (`counter` starts at 0 in the source, unlike the likes
and followers loops).  Returns the final accumulated list, the three
running totals, and the final counter; a Python exception from building a
post aborts the run; `none` is the fuel-exhaustion artifact, unreachable
for fuel at least `MAXP + 1 - counter` by `user_data_posts_aux_total`. -/
def user_data_posts_aux (MAXP MAXL : Nat)
    (likesPages : String → Nat → Option (Response LikesBody))
    (commentsResp : String → Option (Response CommentsBody))
    (pages : Nat → Option (Response PostsBody)) :
    Nat → Nat → List Post → Nat → Nat → Nat →
    Option (Except PyErr (List Post × Nat × Nat × Nat × Nat))
  | 0, counter, full_list, tl, tc, tv =>
    match process_batch_posts MAXP MAXL likesPages commentsResp (pages counter) counter
        full_list tl tc tv with
    | .error e => some (.error e)
    | .ok (fl', tl', tc', tv', none) => some (.ok (fl', tl', tc', tv', counter + 1))
    | .ok (_, _, _, _, some _) => none
  | fuel + 1, counter, full_list, tl, tc, tv =>
    match process_batch_posts MAXP MAXL likesPages commentsResp (pages counter) counter
        full_list tl tc tv with
    | .error e => some (.error e)
    | .ok (fl', tl', tc', tv', none) => some (.ok (fl', tl', tc', tv', counter + 1))
    | .ok (fl', tl', tc', tv', some _) =>
      user_data_posts_aux MAXP MAXL likesPages commentsResp pages fuel (counter + 1)
        fl' tl' tc' tv'

theorem user_data_posts_aux_total (MAXP MAXL : Nat)
    (likesPages : String → Nat → Option (Response LikesBody))
    (commentsResp : String → Option (Response CommentsBody))
    (pages : Nat → Option (Response PostsBody)) :
    ∀ (fuel counter : Nat) (full_list : List Post) (tl tc tv : Nat),
      MAXP + 1 ≤ fuel + counter →
      (user_data_posts_aux MAXP MAXL likesPages commentsResp pages fuel counter
        full_list tl tc tv).isSome = true := by
  intro fuel
  induction fuel with
  | zero =>
    intro counter full_list tl tc tv h
    unfold user_data_posts_aux
    match hpb : process_batch_posts MAXP MAXL likesPages commentsResp (pages counter)
        counter full_list tl tc tv with
    | .error e => simp
    | .ok (fl', tl', tc', tv', none) => simp
    | .ok (fl', tl', tc', tv', some s) =>
      have := process_batch_posts_cursor_lt MAXP MAXL likesPages commentsResp
        (pages counter) counter full_list tl tc tv (fl', tl', tc', tv') s (by exact hpb)
      omega
  | succ fuel ih =>
    intro counter full_list tl tc tv h
    unfold user_data_posts_aux
    match hpb : process_batch_posts MAXP MAXL likesPages commentsResp (pages counter)
        counter full_list tl tc tv with
    | .error e => simp
    | .ok (fl', tl', tc', tv', none) => simp
    | .ok (fl', tl', tc', tv', some s) => exact ih (counter + 1) fl' tl' tc' tv' (by omega)

/-- Embeds the `while end_cursor is not None` loop of `user_data_reels`
from `src/ex1.py` (`counter` also starts at 0 in the source). -/
def user_data_reels_aux (MAXP MAXL : Nat)
    (likesPages : String → Nat → Option (Response LikesBody))
    (commentsResp : String → Option (Response CommentsBody))
    (pages : Nat → Option (Response ReelsBody)) :
    Nat → Nat → List Post → Nat → Nat → Nat →
    Option (Except PyErr (List Post × Nat × Nat × Nat × Nat))
  | 0, counter, full_list, tl, tc, tv =>
    match process_batch_reels MAXP MAXL likesPages commentsResp (pages counter) counter
        full_list tl tc tv with
    | .error e => some (.error e)
    | .ok (fl', tl', tc', tv', none) => some (.ok (fl', tl', tc', tv', counter + 1))
    | .ok (_, _, _, _, some _) => none
  | fuel + 1, counter, full_list, tl, tc, tv =>
    match process_batch_reels MAXP MAXL likesPages commentsResp (pages counter) counter
        full_list tl tc tv with
    | .error e => some (.error e)
    | .ok (fl', tl', tc', tv', none) => some (.ok (fl', tl', tc', tv', counter + 1))
    | .ok (fl', tl', tc', tv', some _) =>
      user_data_reels_aux MAXP MAXL likesPages commentsResp pages fuel (counter + 1)
        fl' tl' tc' tv'

theorem user_data_reels_aux_total (MAXP MAXL : Nat)
    (likesPages : String → Nat → Option (Response LikesBody))
    (commentsResp : String → Option (Response CommentsBody))
    (pages : Nat → Option (Response ReelsBody)) :
    ∀ (fuel counter : Nat) (full_list : List Post) (tl tc tv : Nat),
      MAXP + 1 ≤ fuel + counter →
      (user_data_reels_aux MAXP MAXL likesPages commentsResp pages fuel counter
        full_list tl tc tv).isSome = true := by
  intro fuel
  induction fuel with
  | zero =>
    intro counter full_list tl tc tv h
    unfold user_data_reels_aux
    match hpb : process_batch_reels MAXP MAXL likesPages commentsResp (pages counter)
        counter full_list tl tc tv with
    | .error e => simp
    | .ok (fl', tl', tc', tv', none) => simp
    | .ok (fl', tl', tc', tv', some s) =>
      have := process_batch_reels_cursor_lt MAXP MAXL likesPages commentsResp
        (pages counter) counter full_list tl tc tv (fl', tl', tc', tv') s (by exact hpb)
      omega
  | succ fuel ih =>
    intro counter full_list tl tc tv h
    unfold user_data_reels_aux
    match hpb : process_batch_reels MAXP MAXL likesPages commentsResp (pages counter)
        counter full_list tl tc tv with
    | .error e => simp
    | .ok (fl', tl', tc', tv', none) => simp
    | .ok (fl', tl', tc', tv', some s) => exact ih (counter + 1) fl' tl' tc' tv' (by omega)

/-- The body of `user_data_posts` from `src/ex1.py` WITHOUT its
`@cached(cache)` decorator: the posts loop from `counter = 0`, on a
caller-supplied accumulated list (the source mutates the shared
`media_list`), with totals starting at 0.  Fuel `MAXP + 1` is sufficient
by `user_data_posts_aux_total`.  In the program this body is
unreachable: the wrapper raises first (see `user_data_posts`). -/
def user_data_posts_loop (MAXP MAXL : Nat)
    (likesPages : String → Nat → Option (Response LikesBody))
    (commentsResp : String → Option (Response CommentsBody))
    (pages : Nat → Option (Response PostsBody)) (full_list : List Post) :
    Except PyErr (List Post × Nat × Nat × Nat × Nat) :=
  (user_data_posts_aux MAXP MAXL likesPages commentsResp pages (MAXP + 1) 0 full_list
    0 0 0).getD (.ok (full_list, 0, 0, 0, 0))

/-- The body of `user_data_reels` from `src/ex1.py` WITHOUT its
`@cached(cache)` decorator. -/
def user_data_reels_loop (MAXP MAXL : Nat)
    (likesPages : String → Nat → Option (Response LikesBody))
    (commentsResp : String → Option (Response CommentsBody))
    (pages : Nat → Option (Response ReelsBody)) (full_list : List Post) :
    Except PyErr (List Post × Nat × Nat × Nat × Nat) :=
  (user_data_reels_aux MAXP MAXL likesPages commentsResp pages (MAXP + 1) 0 full_list
    0 0 0).getD (.ok (full_list, 0, 0, 0, 0))

/-- Embeds the source symbol `user_data_posts` from `src/ex1.py` —
`@cached(cache)` applied to the posts loop.  The cache key built from
`(uid, full_list, ...)` contains the list accumulator, so hashing it
raises a `TypeError` on every call: the real posts collector never
fetches a single page. -/
def user_data_posts (MAXP MAXL : Nat)
    (likesPages : String → Nat → Option (Response LikesBody))
    (commentsResp : String → Option (Response CommentsBody))
    (pages : Nat → Option (Response PostsBody)) (uid : Nat) (full_list : List Post) :
    Except PyErr (List Post × Nat × Nat × Nat × Nat) :=
  match cached_key_hash [.int uid, .list] with
  | .error e => .error e
  | .ok _ => user_data_posts_loop MAXP MAXL likesPages commentsResp pages full_list

/-- Embeds the source symbol `user_data_reels` from `src/ex1.py`
(`@cached(cache)` applied to the reels loop): raises `TypeError` on
every call, like `user_data_posts`. -/
def user_data_reels (MAXP MAXL : Nat)
    (likesPages : String → Nat → Option (Response LikesBody))
    (commentsResp : String → Option (Response CommentsBody))
    (pages : Nat → Option (Response ReelsBody)) (uid : Nat) (full_list : List Post) :
    Except PyErr (List Post × Nat × Nat × Nat × Nat) :=
  match cached_key_hash [.int uid, .list] with
  | .error e => .error e
  | .ok _ => user_data_reels_loop MAXP MAXL likesPages commentsResp pages full_list

/-- The decoded body of the tagged-posts call in `user_tagget_count`:
`edges = none` models a `data` mapping without an `edges` key. -/
structure TaggedBody where
  edges : Option (List String)
deriving DecidableEq

/-- The decoded body of the highlights call in `user_highlights_count`:
the size of the `data` mapping. -/
structure HighlightsBody where
  data_size : Nat
deriving DecidableEq

/-- Embeds `user_tagget_count` from `src/ex1.py`: checks
`response is not None and response.status == 200` before touching the
body, so it cannot raise; returns 0 whenever usable data is absent. -/
def user_tagget_count (resp : Option (Response TaggedBody)) : Nat :=
  match resp with
  | none => 0
  | some r =>
    if r.status = 200 then
      match r.body with
      | none => 0
      | some body =>
        match body.edges with
        | none => 0
        | some es => es.length
    else 0

/-- Embeds `user_highlights_count` from `src/ex1.py`. -/
def user_highlights_count (resp : Option (Response HighlightsBody)) : Nat :=
  match resp with
  | none => 0
  | some r =>
    if r.status = 200 then
      match r.body with
      | none => 0
      | some body => body.data_size
    else 0

/-- The decoded body of the `userinfo` lookup used by
`get_user_profile_info_by_username`: `id` with default the empty string,
`is_private` with default `True`, already applied. -/
structure ProfileInfoBody where
  id : String
  is_private : Bool
deriving DecidableEq

/-- The non-empty result of `get_user_profile_info_by_username`. -/
structure UserProfileInfo where
  user_id : String
  is_private : Bool
deriving DecidableEq

/-- Embeds `get_user_profile_info_by_username` from
`src/common_functions.py`.  The source evaluates `response.status` before
testing anything else; when `api_call` returned `None` (transport failure
or non-2xx status raised by `raise_for_status`), that attribute access
raises an uncaught `AttributeError`, modelled as the `Except.error`.
Otherwise a non-200 status or a falsy body yields the empty mapping
(`Option.none`), as does an empty `id`. -/
def get_user_profile_info_by_username (resp : Option (Response ProfileInfoBody)) :
    Except PyErr (Option UserProfileInfo) :=
  match resp with
  | none => .error .attributeError
  | some r =>
    if r.status ≠ 200 then .ok none
    else
      match r.body with
      | none => .ok none
      | some body =>
        if body.id = "" then .ok none
        else .ok (some { user_id := body.id, is_private := body.is_private })

/-- The decoded body of the `usercontact` call used by `user_data_main`:
the fields of `json_data['data']['user']` with the `.get` defaults
applied.  `pk` is kept as a natural number with 0 for the missing or
empty value: every use of the id in the source is either the falsy test
`if not uid` or `int(uid)`. -/
structure ContactBody where
  pk : Nat
  full_name : String
  profile_pic_url : String
  is_private : Bool
  follower_count : Nat
  following_count : Nat
deriving DecidableEq

/-- The dictionary assembled by `user_data_main`. -/
structure MainInfo where
  id : Nat
  profile_link : String
  username : String
  full_name : String
  icon_url : String
  is_private : Bool
  followers_count : Nat
  followings_count : Nat
deriving DecidableEq

/-- Embeds `user_data_main` from `src/common_functions.py`: resolves the
profile via `get_user_profile_info_by_username` (an empty lookup yields
the empty mapping without a second call), then performs the `usercontact`
call, again evaluating `response.status` before the `None` test — so an
absent second response also raises an `AttributeError`. -/
def user_data_main (profileResp : Option (Response ProfileInfoBody))
    (contactResp : Option (Response ContactBody)) (username : String) :
    Except PyErr (Option MainInfo) :=
  match get_user_profile_info_by_username profileResp with
  | .error e => .error e
  | .ok none => .ok none
  | .ok (some _) =>
    match contactResp with
    | none => .error .attributeError
    | some r =>
      if r.status ≠ 200 then .ok none
      else
        match r.body with
        | none => .ok none
        | some body =>
          .ok (some { id := body.pk,
                      profile_link := "https://instagram.com/" ++ username,
                      username := username,
                      full_name := body.full_name,
                      icon_url := body.profile_pic_url,
                      is_private := body.is_private,
                      followers_count := body.follower_count,
                      followings_count := body.following_count })

/-- The upstream environment of one aggregation run: one response per
single-shot endpoint and one response stream per paginated endpoint (the
per-post likes and comments endpoints are keyed by shortcode). -/
structure Env where
  profileResp : Option (Response ProfileInfoBody)
  contactResp : Option (Response ContactBody)
  postsPages : Nat → Option (Response PostsBody)
  reelsPages : Nat → Option (Response ReelsBody)
  followersPages : Nat → Option (Response FollowBody)
  followingPages : Nat → Option (Response FollowBody)
  likesPages : String → Nat → Option (Response LikesBody)
  commentsResp : String → Option (Response CommentsBody)
  taggedResp : Option (Response TaggedBody)
  highlightsResp : Option (Response HighlightsBody)

/-- What can escape `get_analysis_by_single_account`: the deliberate
`ProfileIsPrivateException` or an unhandled Python exception. -/
inductive AErr where
  | profileIsPrivate
  | py (e : PyErr)
deriving DecidableEq

/-- The `data` sub-dictionary of the final report. -/
structure ReportData where
  posts_count : Nat
  comments_count : Nat
  views_count : Nat
  likes_count : Nat
  followers : List FollowItem
  following : List FollowItem
  posts : List Post
  taggets_count : Nat
  highlights_count : Nat
deriving DecidableEq

/-- The final profile report assembled by
`get_analysis_by_single_account`. -/
structure Report where
  id : Nat
  profile_link : String
  username : String
  full_name : String
  followers_count : Nat
  follows_count : Nat
  icon_url : String
  data : ReportData
deriving DecidableEq

/-- Stable insertion of a post in front of the first strictly older
post. -/
def insertByDateDesc (p : Post) : List Post → List Post
  | [] => [p]
  | q :: rest =>
    if q.post_date < p.post_date then p :: q :: rest else q :: insertByDateDesc p rest

/-- Embeds `sorted(media_list, key=..., reverse=True)` at the end of
`get_analysis_by_single_account`: descending by post date.  The source
compares the formatted date strings, which orders like the timestamps
kept here. -/
def sortByDateDesc : List Post → List Post
  | [] => []
  | p :: rest => insertByDateDesc p (sortByDateDesc rest)

/-- Embeds the entry point `get_analysis_by_single_account` from
`src/ex1.py`.  An empty `user_data_main` result makes
`result.get('is_private', True)` default to `True`, raising
`ProfileIsPrivateException`; a falsy id yields the empty report `{}`
(modelled as `Option.none`) without touching any stream.  The six stream
collector calls are issued via `asyncio.create_task`/`gather` in the
source; they are sequenced here in task-creation order (reels, posts,
followers, following, scalar counts), with the reels and posts
collectors sharing the accumulated media list.  The four paginated
collectors are the decorated source symbols, so for every resolvable,
non-private uid the first of them raises a `TypeError` (unhashable list
in the cache key) that propagates out of the entry point — the report
branch below is dead code in the program, kept for structure. -/
def get_analysis_by_single_account (MAXP MAXL MAXF : Nat) (env : Env)
    (username : String) : Except AErr (Option Report) :=
  match user_data_main env.profileResp env.contactResp username with
  | .error e => .error (.py e)
  | .ok none => .error .profileIsPrivate
  | .ok (some main) =>
    if main.is_private then .error .profileIsPrivate
    else if main.id = 0 then .ok none
    else
      match user_data_reels MAXP MAXL env.likesPages env.commentsResp env.reelsPages
          main.id [] with
      | .error e => .error (.py e)
      | .ok (media1, reels_likes, reels_comments, reels_views, _) =>
        match user_data_posts MAXP MAXL env.likesPages env.commentsResp env.postsPages
            main.id media1 with
        | .error e => .error (.py e)
        | .ok (media2, posts_likes, posts_comments, posts_views, _) =>
          match user_data_followers MAXF env.followersPages main.id with
          | .error e => .error (.py e)
          | .ok (followers_list, _) =>
            match user_data_following MAXF env.followingPages main.id with
            | .error e => .error (.py e)
            | .ok (following_list, _) =>
              let tagged_count := user_tagget_count env.taggedResp
              let highlights_count := user_highlights_count env.highlightsResp
              let media_list := sortByDateDesc media2
              .ok (some
                { id := main.id,
                  profile_link := "https://instagram.com/" ++ username,
                  username := username,
                  full_name := main.full_name,
                  followers_count := main.followers_count,
                  follows_count := main.followings_count,
                  icon_url := main.icon_url,
                  data :=
                    { posts_count := media_list.length,
                      comments_count := posts_comments + reels_comments,
                      views_count := posts_views + reels_views,
                      likes_count := posts_likes + reels_likes,
                      followers := followers_list,
                      following := following_list,
                      posts := media_list,
                      taggets_count := tagged_count,
                      highlights_count := highlights_count } })

/-- A Python coroutine object as produced by calling one of the
`async def` functions of `src/ex1.py`: an allocation identity plus the
argument it closed over.  A coroutine can be awaited at most once. -/
structure Coro where
  id : Nat
  key : Nat
deriving DecidableEq

/-- The state of the module-level `TTLCache(maxsize=100, ttl=3600)` of
`src/ex1.py` together with the coroutine allocator: `entries` maps a call
key to the cached value (a coroutine id) and its insertion time,
`consumed` records the coroutines that have already been awaited. -/
structure CacheState where
  entries : List (Nat × Nat × Nat)
  nextId : Nat
  consumed : List Nat
deriving DecidableEq

/-- The initial cache state at module import. -/
def cacheInit : CacheState := { entries := [], nextId := 0, consumed := [] }

/-- Embeds calling a `@cached(cache)`-decorated `async def` of
`src/ex1.py` (such as `user_tagget_count`) with a hashable key at time
`now`: the cachetools wrapper looks the key up in the `TTLCache`
(an entry is visible while `now < insertion + ttl`) and on a hit returns
the stored value unchanged; on a miss it calls the wrapped function —
which, being a coroutine function, merely CREATES a new coroutine object
without running the body — stores that object and returns it. -/
def cachedCall (ttl : Nat) (st : CacheState) (k : Nat) (now : Nat) : Coro × CacheState :=
  match st.entries.find? (fun e => e.1 == k && now < e.2.2 + ttl) with
  | some e => ({ id := e.2.1, key := k }, st)
  | none =>
    ({ id := st.nextId, key := k },
     { entries := (k, st.nextId, now) :: st.entries,
       nextId := st.nextId + 1,
       consumed := st.consumed })

/-- The result of awaiting a coroutine. -/
inductive AwaitResult where
  | value (v : Nat)
  | runtimeError
deriving DecidableEq

/-- Embeds awaiting a coroutine: the first await runs the wrapped body
(`compute` on the closed-over key) and yields its value; awaiting the
same coroutine object again raises
`RuntimeError: cannot reuse already awaited coroutine`. -/
def awaitCoro (compute : Nat → Nat) (st : CacheState) (c : Coro) :
    AwaitResult × CacheState :=
  if c.id ∈ st.consumed then (.runtimeError, st)
  else (.value (compute c.key), { st with consumed := c.id :: st.consumed })

/-- First call to a cached operation for key 7 at time 0. -/
def cacheCall1 : Coro × CacheState := cachedCall 3600 cacheInit 7 0

/-- Awaiting the coroutine returned by the first call. -/
def cacheAwait1 : AwaitResult × CacheState :=
  awaitCoro (fun u => u + 1) cacheCall1.2 cacheCall1.1

/-- Second call for the same key at time 10, inside the TTL. -/
def cacheCall2 : Coro × CacheState := cachedCall 3600 cacheAwait1.2 7 10

/-- Awaiting the coroutine returned by the second call. -/
def cacheAwait2 : AwaitResult × CacheState :=
  awaitCoro (fun u => u + 1) cacheCall2.2 cacheCall2.1

/-- Third call for the same key at time 4000, after TTL expiry. -/
def cacheCall3 : Coro × CacheState := cachedCall 3600 cacheAwait2.2 7 4000

/-- Awaiting the coroutine returned by the post-expiry call. -/
def cacheAwait3 : AwaitResult × CacheState :=
  awaitCoro (fun u => u + 1) cacheCall3.2 cacheCall3.1

/-- An environment in which every upstream call fails at the transport
level: `api_call` returns `None` everywhere. -/
def envAllDown : Env :=
  { profileResp := none, contactResp := none, postsPages := fun _ => none,
    reelsPages := fun _ => none, followersPages := fun _ => none,
    followingPages := fun _ => none, likesPages := fun _ _ => none,
    commentsResp := fun _ => none, taggedResp := none, highlightsResp := none }

/-- An environment whose profile lookup succeeds (status 200, truthy
body) but carries an empty `id`: no subject id is resolvable. -/
def envNoProfileId : Env :=
  { envAllDown with
    profileResp := some { status := 200, body := some { id := "", is_private := false } } }

/-- An environment whose profile lookup fails with a plain 404 status:
the lookup yields the empty mapping without raising. -/
def envProfile404 : Env :=
  { envAllDown with profileResp := some { status := 404, body := none } }

/-- An environment that resolves the profile as public but whose contact
lookup supplies no `pk`: the aggregator sees a falsy uid. -/
def envNoUid : Env :=
  { envAllDown with
    profileResp := some { status := 200, body := some { id := "42", is_private := false } },
    contactResp := some
      { status := 200,
        body := some
          { pk := 0, full_name := "F", profile_pic_url := "P",
            is_private := false, follower_count := 5, following_count := 6 } } }

/-- A followers upstream in which the same user x appears on every page
and the cursor never signals exhaustion. -/
def dupFollowPages : Nat → Option (Response FollowBody) :=
  fun _ => some
    { status := 200,
      body := some
        { user := [{ username := "x", profile_pic_url := "p" }],
          end_cursor := some "c" } }

/-- A second always-continuing followers upstream repeating user y. -/
def dupFollowPagesY : Nat → Option (Response FollowBody) :=
  fun _ => some
    { status := 200,
      body := some
        { user := [{ username := "y", profile_pic_url := "q" }],
          end_cursor := some "c" } }

/-- A posts upstream that always answers with an empty page and a
non-terminal cursor. -/
def cursorPostsPages : Nat → Option (Response PostsBody) :=
  fun _ => some { status := 200, body := some { edges := [], end_cursor := some "CUR" } }

/-- A likes upstream whose single fetched page carries 51 like nodes. -/
def bigLikesPage : Nat → Option (Response LikesBody) :=
  fun _ => some
    { status := 200,
      body := some
        { likes := List.replicate 51 { username := "u", profile_pic_url := "p", id := "1" },
          end_cursor := some "c" } }

/-- A minimal raw post node. -/
def nodeW : PostNode :=
  { shortcode := "s", taken_at_timestamp := 0, taken_at := 0, is_video := false,
    video_view_count := 0, display_url := "", sidecar := [], caption_edges := [] }

/-- The post that `_process_post` builds from `nodeW` when every likes
page answers with status 200 and a falsy body (one page fetched, nothing
accumulated) and the comments call has no response (its explicit
`None` check yields the zero pair). -/
def postW : Post :=
  { shortcode := "s", likes := [], comments := [],
    post_url := "https://instagram.com/p/s", post_date := 0, view_count := 0,
    media := [some ""], likes_count := 0, comments_count := 0, text := "" }

/-- C1: the claim that `get_analysis_by_single_account` either raises the
`ProfileIsPrivate` signal or returns without raising fails on the code:
when the profile-lookup `api_call` returns `None` (absent response, which
is also how a non-2xx status surfaces), `get_user_profile_info_by_username`
evaluates `response.status` on `None` and the resulting `AttributeError`
propagates out of the entry point. -/
theorem analysis_raises_on_absent_profile_response :
    get_analysis_by_single_account 50 50 100 envAllDown "user1" =
      .error (.py .attributeError) := rfl

/-- C8: the claim that `post_comments` always returns the zero-value pair
fails on the code in the case it itself singles out: with HTTP status 200
and a falsy decoded body the function falls off the end and returns
Python `None`, so the caller `_process_post` raises a `TypeError` when
unpacking the result.  The evaluated instance keeps every per-post
upstream response present (status 200 with a falsy body), so the likes
loop ends after one page without raising and the run reaches the
`post_comments` unpacking — the whole path is faithful to the source. -/
theorem post_comments_none_on_empty_body :
    post_comments (some { status := 200, body := none }) = none ∧
    _process_post 50 (fun _ _ => some { status := 200, body := none })
      (fun _ => some { status := 200, body := none }) nodeW = .error .typeError :=
  ⟨rfl, rfl⟩

/-- C9: the claim that a second call within the TTL returns the stored
result fails on the code: `cachetools.cached` stores the coroutine object
created by the first call, so the second call returns that same (already
awaited) coroutine and awaiting it raises `RuntimeError` instead of
yielding the computed value; only after TTL expiry does a fresh coroutine
get created and the computation run again. -/
theorem cached_async_second_call_raises :
    cacheCall2.1 = cacheCall1.1 ∧
    cacheAwait1.1 = .value 8 ∧
    cacheAwait2.1 = .runtimeError ∧
    cacheAwait3.1 = .value 8 :=
  ⟨rfl, rfl, rfl, rfl⟩

/-- Counterexample to C2 as stated: for a username whose profile lookup
yields an empty result (here: status 200 with an empty `id`), the entry
point raises the `ProfileIsPrivate` signal instead of returning an empty
report without raising. -/
theorem analysis_on_unresolvable_id_raises_private :
    get_analysis_by_single_account 50 50 100 envNoProfileId "user1" =
      .error .profileIsPrivate ∧
    get_analysis_by_single_account 50 50 100 envNoProfileId "user1" ≠ .ok none :=
  ⟨rfl, fun h => Except.noConfusion h⟩

/-- Counterexample to C7 as stated: with budget
`MAX_ANALYSIS_LIKES_AND_COMMENTS = 50`, a single likes page of 51 nodes
makes `post_likes` accumulate 51 items — the final item count is NOT
capped to the budget (no truncation exists in the code). -/
theorem post_likes_length_exceeds_budget :
    (post_likes 50 bigLikesPage).1.length = 51 ∧ ¬ (51 ≤ 50) :=
  ⟨rfl, by decide⟩

/-- C10: every post record built by `_process_post` and every reel record
built by `_process_reels` satisfies `likes_count = likes.length`, because
`post_likes` returns the length of the very list it filled. -/
theorem likes_count_eq_likes_length :
    (∀ (MAXL : Nat) (lp : String → Nat → Option (Response LikesBody))
        (cr : String → Option (Response CommentsBody)) (node : PostNode) (p : Post),
        _process_post MAXL lp cr node = .ok p → p.likes_count = p.likes.length) ∧
    (∀ (MAXL : Nat) (lp : String → Nat → Option (Response LikesBody))
        (cr : String → Option (Response CommentsBody)) (node : ReelNode) (p : Post),
        _process_reels MAXL lp cr node = .ok p → p.likes_count = p.likes.length) := by
  constructor
  · intro MAXL lp cr node p h
    simp only [_process_post] at h
    split at h
    · exact absurd h (by simp)
    · cases h
      rfl
  · intro MAXL lp cr node p h
    simp only [_process_reels] at h
    split at h
    · exact absurd h (by simp)
    · cases h
      rfl

/-- Witness for C10: a concrete post built on a faithful path — the
likes pages are present with status 200 and falsy bodies (the loop ends
after one page, accumulating nothing, without raising) and the comments
response is absent (its explicit `None` check yields the zero pair) —
has `likes_count = 0 = length of its empty likes list`. -/
theorem likes_count_eq_likes_length_witness :
    _process_post 0 (fun _ _ => some { status := 200, body := none })
      (fun _ => none) nodeW = Except.ok postW ∧
    postW.likes_count = postW.likes.length :=
  ⟨rfl, likes_count_eq_likes_length.1 0 (fun _ _ => some { status := 200, body := none })
    (fun _ => none) nodeW postW rfl⟩

/-- C2 as amended: whenever the profile lookup yields an empty result
(no subject id resolvable), the entry point raises the
`ProfileIsPrivate` signal — the empty mapping makes
`result.get('is_private', True)` default to `True`; the empty report
without raising arises only in the other missing-identity case, when the
profile resolves as non-private but the contact lookup supplies no id. -/
theorem analysis_empty_lookup_defaults_to_private :
    (∀ (env : Env) (username : String) (MAXP MAXL MAXF : Nat),
        get_user_profile_info_by_username env.profileResp = .ok none →
        get_analysis_by_single_account MAXP MAXL MAXF env username =
          .error .profileIsPrivate) ∧
    get_analysis_by_single_account 50 50 100 envNoUid "user1" = .ok none := by
  constructor
  · intro env username MAXP MAXL MAXF h
    unfold get_analysis_by_single_account user_data_main
    rw [h]
  · rfl

/-- Witness for C2 as amended: a 404 profile lookup yields the empty
mapping, and the entry point raises the privacy signal. -/
theorem analysis_empty_lookup_witness :
    get_analysis_by_single_account 1 2 3 envProfile404 "user2" =
      .error .profileIsPrivate :=
  analysis_empty_lookup_defaults_to_private.1 envProfile404 "user2" 1 2 3 rfl

/-- C6: every pagination loop terminates regardless of the upstream, in
particular when the upstream always returns a non-terminal cursor: the
fuel-indexed embedding of each `while cursor is not None` loop never
exhausts its fuel once the fuel covers the budget, because each page
request forces the cursor to the terminal value as soon as
`counter * 50` reaches the budget, and every failure outcome (absent
response, bad status, undecodable body, or a raised exception inside a
page) also ends the loop. -/
theorem pagination_loops_terminate :
    (∀ (MAXL : Nat) (pages : Nat → Option (Response LikesBody))
        (fuel counter : Nat) (result : List LikeItem), MAXL + 1 ≤ fuel + counter →
        (post_likes_aux MAXL pages fuel counter result).isSome = true) ∧
    (∀ (MAXF : Nat) (pages : Nat → Option (Response FollowBody))
        (fuel counter : Nat) (full_list : List FollowItem), MAXF + 1 ≤ fuel + counter →
        (user_data_followers_aux MAXF pages fuel counter full_list).isSome = true) ∧
    (∀ (MAXF : Nat) (pages : Nat → Option (Response FollowBody))
        (fuel counter : Nat) (full_list : List FollowItem), MAXF + 1 ≤ fuel + counter →
        (user_data_following_aux MAXF pages fuel counter full_list).isSome = true) ∧
    (∀ (MAXP MAXL : Nat) (lp : String → Nat → Option (Response LikesBody))
        (cr : String → Option (Response CommentsBody))
        (pages : Nat → Option (Response PostsBody)) (fuel counter : Nat)
        (full_list : List Post) (tl tc tv : Nat), MAXP + 1 ≤ fuel + counter →
        (user_data_posts_aux MAXP MAXL lp cr pages fuel counter full_list
          tl tc tv).isSome = true) ∧
    (∀ (MAXP MAXL : Nat) (lp : String → Nat → Option (Response LikesBody))
        (cr : String → Option (Response CommentsBody))
        (pages : Nat → Option (Response ReelsBody)) (fuel counter : Nat)
        (full_list : List Post) (tl tc tv : Nat), MAXP + 1 ≤ fuel + counter →
        (user_data_reels_aux MAXP MAXL lp cr pages fuel counter full_list
          tl tc tv).isSome = true) :=
  ⟨post_likes_aux_total, user_data_followers_aux_total, user_data_following_aux_total,
   user_data_posts_aux_total, user_data_reels_aux_total⟩

/-- Witness for C6 at concrete loops with always-continuing upstreams and
the budgets of the counterexamples. -/
theorem pagination_loops_terminate_witness :
    (post_likes_aux 50 bigLikesPage 51 1 []).isSome = true ∧
    (user_data_followers_aux 100 dupFollowPages 101 1 []).isSome = true ∧
    (user_data_following_aux 100 dupFollowPagesY 101 1 []).isSome = true ∧
    (user_data_posts_aux 50 50 (fun _ _ => none) (fun _ => none) cursorPostsPages
      51 0 [] 0 0 0).isSome = true ∧
    (user_data_reels_aux 50 50 (fun _ _ => none) (fun _ => none) (fun _ => none)
      51 0 [] 0 0 0).isSome = true :=
  ⟨pagination_loops_terminate.1 50 bigLikesPage 51 1 [] (by decide),
   pagination_loops_terminate.2.1 100 dupFollowPages 101 1 [] (by decide),
   pagination_loops_terminate.2.2.1 100 dupFollowPagesY 101 1 [] (by decide),
   pagination_loops_terminate.2.2.2.1 50 50 (fun _ _ => none) (fun _ => none)
     cursorPostsPages 51 0 [] 0 0 0 (by decide),
   pagination_loops_terminate.2.2.2.2 50 50 (fun _ _ => none) (fun _ => none)
     (fun _ => none) 51 0 [] 0 0 0 (by decide)⟩

theorem post_likes_aux_counter_bound (MAXL : Nat)
    (pages : Nat → Option (Response LikesBody)) :
    ∀ (fuel counter : Nat) (result : List LikeItem) (out : List LikeItem × Nat),
      counter ≤ MAXL / 50 + 1 →
      post_likes_aux MAXL pages fuel counter result = some out →
      out.2 ≤ MAXL / 50 + 2 := by
  intro fuel
  induction fuel with
  | zero =>
    intro counter result out hc h
    unfold post_likes_aux at h
    match hpb : process_batch MAXL (pages counter) counter result with
    | (result', none) =>
      rw [hpb] at h
      simp only [Option.some.injEq] at h
      subst h
      show counter + 1 ≤ MAXL / 50 + 2
      omega
    | (result', some s) =>
      rw [hpb] at h
      simp at h
  | succ fuel ih =>
    intro counter result out hc h
    unfold post_likes_aux at h
    match hpb : process_batch MAXL (pages counter) counter result with
    | (result', none) =>
      rw [hpb] at h
      simp only [Option.some.injEq] at h
      subst h
      show counter + 1 ≤ MAXL / 50 + 2
      omega
    | (result', some s) =>
      rw [hpb] at h
      have hlt := process_batch_cursor_lt MAXL (pages counter) counter result s
        (by rw [hpb])
      have hdiv : counter ≤ MAXL / 50 := by
        rw [Nat.le_div_iff_mul_le (by norm_num : 0 < 50)]
        omega
      exact ih (counter + 1) result' out (by omega) h

/-- C7 as amended: the budget caps the number of page requests that
`post_likes` issues — the final counter (which starts at 1 and counts one
past the requests made) stays within `MAXL / 50 + 2`, so at most
`MAXL / 50 + 1` requests are made — but the accumulated items are
returned untruncated, so their number can exceed the budget (shown by
the counterexample). -/
theorem post_likes_requests_bounded :
    ∀ (MAXL : Nat) (pages : Nat → Option (Response LikesBody)),
      (post_likes MAXL pages).2 - 1 ≤ MAXL / 50 + 1 := by
  intro MAXL pages
  unfold post_likes
  cases haux : post_likes_aux MAXL pages (MAXL + 1) 1 [] with
  | none => simp
  | some out =>
    have hb := post_likes_aux_counter_bound MAXL pages (MAXL + 1) 1 [] out
      (by omega) haux
    simp only [Option.getD_some]
    omega

/-- C3: the claim fails before any page arithmetic is reached: the source
symbol `user_data_posts` is `@cached(cache)` and receives its list
accumulator as an argument, so the wrapper raises a `TypeError` while
hashing the cache key on every call — with budget 50 (or any other) the
posts collector fetches ZERO pages rather than exactly one.  (Its
undecorated loop would not fetch exactly one page either: its counter
starts at 0, so budget 50 allows the pages at counter 0 and 1 before the
cursor is forced terminal.) -/
theorem posts_collector_always_raises_type_error :
    ∀ (MAXP MAXL : Nat) (lp : String → Nat → Option (Response LikesBody))
      (cr : String → Option (Response CommentsBody))
      (pages : Nat → Option (Response PostsBody)) (uid : Nat) (fl : List Post),
      user_data_posts MAXP MAXL lp cr pages uid fl = .error .typeError :=
  fun _ _ _ _ _ _ _ => rfl

/-- Counterexample to C4 as stated: the follower item x appears on both
pages that the upstream `dupFollowPages` serves, yet the followers
collector produces no accumulated sequence at all — let alone one
containing x exactly once: every call raises a `TypeError` inside its
`@cached` wrapper (unhashable list in the cache key) before a single
page is requested. -/
theorem followers_dup_run_raises_type_error :
    user_data_followers 100 dupFollowPages 7 = .error .typeError ∧
    ∀ out : List FollowItem × Nat,
      user_data_followers 100 dupFollowPages 7 ≠ .ok out :=
  ⟨rfl, fun _ h => Except.noConfusion h⟩

theorem processChildComments_inv (children : List RawChildComment) :
    ∀ seen : List String,
      (((processChildComments children seen).1.map Comment.username).Nodup) ∧
      (∀ u, u ∈ (processChildComments children seen).1.map Comment.username →
        u ∉ seen ∧ u ∈ (processChildComments children seen).2) ∧
      (∀ u, u ∈ seen → u ∈ (processChildComments children seen).2) := by
  induction children with
  | nil =>
    intro seen
    refine ⟨by simp [processChildComments], ?_, ?_⟩
    · intro u hu
      simp [processChildComments] at hu
    · intro u hu
      simpa [processChildComments] using hu
  | cons child rest ih =>
    intro seen
    by_cases hmem : child.username ∈ seen
    · have hred : processChildComments (child :: rest) seen =
          processChildComments rest seen := by
        simp [processChildComments, hmem]
      rw [hred]
      exact ih seen
    · have hred : processChildComments (child :: rest) seen =
          (_process_comment_child child ::
            (processChildComments rest (child.username :: seen)).1,
           (processChildComments rest (child.username :: seen)).2) := by
        simp [processChildComments, hmem]
      rw [hred]
      obtain ⟨ih1, ih2, ih3⟩ := ih (child.username :: seen)
      refine ⟨?_, ?_, ?_⟩
      · simp only [List.map_cons]
        rw [List.nodup_cons]
        refine ⟨?_, ih1⟩
        intro hin
        exact (ih2 _ hin).1 (by simp [_process_comment_child])
      · intro u hu
        simp only [List.map_cons, List.mem_cons] at hu
        rcases hu with hu | hu
        · subst hu
          refine ⟨by simpa [_process_comment_child] using hmem, ?_⟩
          exact ih3 _ (by simp [_process_comment_child])
        · have h2 := ih2 u hu
          refine ⟨?_, h2.2⟩
          intro hs
          exact h2.1 (by simp [hs])
      · intro u hu
        exact ih3 u (by simp [hu])

theorem processComments_inv (comments : List RawComment) :
    ∀ seen : List String,
      (((processComments comments seen).1.map Comment.username).Nodup) ∧
      (∀ u, u ∈ (processComments comments seen).1.map Comment.username →
        u ∉ seen ∧ u ∈ (processComments comments seen).2) ∧
      (∀ u, u ∈ seen → u ∈ (processComments comments seen).2) := by
  induction comments with
  | nil =>
    intro seen
    refine ⟨by simp [processComments], ?_, ?_⟩
    · intro u hu
      simp [processComments] at hu
    · intro u hu
      simpa [processComments] using hu
  | cons comment rest ih =>
    intro seen
    by_cases hmem : comment.username ∈ seen
    · obtain ⟨c1nodup, c1mem, c1mono⟩ :=
        processChildComments_inv comment.preview_child_comments seen
      obtain ⟨t1nodup, t1mem, t1mono⟩ :=
        ih (processChildComments comment.preview_child_comments seen).2
      have hred : processComments (comment :: rest) seen =
          ((processChildComments comment.preview_child_comments seen).1 ++
            (processComments rest
              (processChildComments comment.preview_child_comments seen).2).1,
           (processComments rest
              (processChildComments comment.preview_child_comments seen).2).2) := by
        simp [processComments, hmem]
      rw [hred]
      refine ⟨?_, ?_, ?_⟩
      · simp only [List.map_append]
        rw [List.nodup_append]
        refine ⟨c1nodup, t1nodup, ?_⟩
        intro a ha hb
        exact (t1mem a hb).1 ((c1mem a ha).2)
      · intro u hu
        simp only [List.map_append, List.mem_append] at hu
        rcases hu with hu | hu
        · exact ⟨(c1mem u hu).1, t1mono u (c1mem u hu).2⟩
        · refine ⟨?_, (t1mem u hu).2⟩
          intro hs
          exact (t1mem u hu).1 (c1mono u hs)
      · intro u hu
        exact t1mono u (c1mono u hu)
    · obtain ⟨c1nodup, c1mem, c1mono⟩ :=
        processChildComments_inv comment.preview_child_comments
          (comment.username :: seen)
      obtain ⟨t1nodup, t1mem, t1mono⟩ :=
        ih (processChildComments comment.preview_child_comments
          (comment.username :: seen)).2
      have hred : processComments (comment :: rest) seen =
          (_process_comment comment ::
            ((processChildComments comment.preview_child_comments
                (comment.username :: seen)).1 ++
              (processComments rest
                (processChildComments comment.preview_child_comments
                  (comment.username :: seen)).2).1),
           (processComments rest
              (processChildComments comment.preview_child_comments
                (comment.username :: seen)).2).2) := by
        simp [processComments, hmem]
      rw [hred]
      refine ⟨?_, ?_, ?_⟩
      · simp only [List.map_cons, List.map_append]
        rw [List.nodup_cons]
        constructor
        · intro hin
          rw [List.mem_append] at hin
          rcases hin with hin | hin
          · exact (c1mem _ hin).1 (by simp [_process_comment])
          · exact (t1mem _ hin).1 (c1mono _ (by simp [_process_comment]))
        · rw [List.nodup_append]
          refine ⟨c1nodup, t1nodup, ?_⟩
          intro a ha hb
          exact (t1mem a hb).1 ((c1mem a ha).2)
      · intro u hu
        simp only [List.map_cons, List.map_append, List.mem_cons,
          List.mem_append] at hu
        rcases hu with hu | hu | hu
        · subst hu
          refine ⟨by simpa [_process_comment] using hmem, ?_⟩
          exact t1mono _ (c1mono _ (by simp [_process_comment]))
        · have h2 := c1mem u hu
          refine ⟨?_, t1mono u h2.2⟩
          intro hs
          exact h2.1 (by simp [hs])
        · have h2 := t1mem u hu
          refine ⟨?_, h2.2⟩
          intro hs
          exact h2.1 (c1mono u (by simp [hs]))
      · intro u hu
        exact t1mono u (c1mono u (by simp [hu]))

theorem post_comments_usernames_nodup :
    ∀ (resp : Option (Response CommentsBody)) (items : List Comment) (count : Nat),
      post_comments resp = some (items, count) →
      (items.map Comment.username).Nodup := by
  intro resp items count h
  rcases resp with _ | r
  · simp only [post_comments, Option.some.injEq, Prod.mk.injEq] at h
    rw [← h.1]
    simp
  · simp only [post_comments] at h
    split at h
    · match hb : r.body with
      | none =>
        rw [hb] at h
        exact absurd h (by simp)
      | some body =>
        rw [hb] at h
        simp only [Option.some.injEq, Prod.mk.injEq] at h
        rw [← h.1]
        exact (processComments_inv body.comments []).1
    · simp only [Option.some.injEq, Prod.mk.injEq] at h
      rw [← h.1]
      simp

/-- C4 as amended: deduplication by identity key is real only in the
comments collector — within its single page each username is kept at
most once, across top-level comments and preview children alike — while
the followers, following, posts and reels collectors never return an
accumulated sequence at all: every call raises a `TypeError` in the
`@cached` wrapper, because the list argument makes the cache key
unhashable, so no run of theirs can exhibit any deduplication. -/
theorem dedup_only_in_comments :
    (∀ (MAXF : Nat) (pages : Nat → Option (Response FollowBody)) (uid : Nat),
        user_data_followers MAXF pages uid = .error .typeError) ∧
    (∀ (MAXF : Nat) (pages : Nat → Option (Response FollowBody)) (uid : Nat),
        user_data_following MAXF pages uid = .error .typeError) ∧
    (∀ (MAXP MAXL : Nat) (lp : String → Nat → Option (Response LikesBody))
        (cr : String → Option (Response CommentsBody))
        (pages : Nat → Option (Response PostsBody)) (uid : Nat) (fl : List Post),
        user_data_posts MAXP MAXL lp cr pages uid fl = .error .typeError) ∧
    (∀ (MAXP MAXL : Nat) (lp : String → Nat → Option (Response LikesBody))
        (cr : String → Option (Response CommentsBody))
        (pages : Nat → Option (Response ReelsBody)) (uid : Nat) (fl : List Post),
        user_data_reels MAXP MAXL lp cr pages uid fl = .error .typeError) ∧
    (∀ (resp : Option (Response CommentsBody)) (items : List Comment) (count : Nat),
        post_comments resp = some (items, count) →
        (items.map Comment.username).Nodup) :=
  ⟨fun _ _ _ => rfl, fun _ _ _ => rfl, fun _ _ _ _ _ _ _ => rfl,
   fun _ _ _ _ _ _ _ => rfl, post_comments_usernames_nodup⟩

/-- A preview child comment repeating the username of its parent. -/
def childA : RawChildComment :=
  { username := "a", profile_pic_url := "p", pk_id := "2", text := "t2",
    created_at_utc := 6, has_liked_comment := true }

/-- A preview child comment by a fresh user. -/
def childB : RawChildComment :=
  { username := "b", profile_pic_url := "q", pk_id := "3", text := "t3",
    created_at_utc := 8, has_liked_comment := false }

/-- A top-level comment by user a whose preview children repeat a and
add b. -/
def topA : RawComment :=
  { username := "a", profile_pic_url := "p", pk_id := "1", text := "t1",
    created_at_utc := 5, has_liked_comment := false,
    preview_child_comments := [childA, childB] }

/-- A comments response whose single page carries the username a twice. -/
def dupCommentsResp : Option (Response CommentsBody) :=
  some { status := 200, body := some { comments := [topA], count := 7 } }

/-- The comment list the source builds from `dupCommentsResp`: the
duplicate child by a is dropped, b is kept. -/
def dupCommentsItems : List Comment :=
  [{ date := 5, has_liked_comment := false, text := "t1", username := "a",
     icon_url := "p", profile_link := "https://instagram.com/a", id := "1" },
   { date := 8, has_liked_comment := false, text := "t3", username := "b",
     icon_url := "q", profile_link := "https://instagram.com/b", id := "3" }]

/-- Witness for C4 as amended: on the duplicate-bearing page the
comments collector keeps a once and b once. -/
theorem dedup_only_in_comments_witness :
    post_comments dupCommentsResp = some (dupCommentsItems, 7) ∧
    (dupCommentsItems.map Comment.username).Nodup :=
  ⟨rfl, dedup_only_in_comments.2.2.2.2 dupCommentsResp dupCommentsItems 7 rfl⟩
